import Mathlib

/-
Shallow embedding of src/spotify_worker.rs: the Worker actor that mediates
between playback commands and the librespot backend.  One iteration of
Worker::run_loop is modelled as a pure step function over the actor state
(the `active` flag and the token task slot), producing a list of observable
effects (outward events, backend calls, token replies) and a termination flag.
External collaborators (the URI parser SpotifyId::from_uri, the clock, the
choice of which select branch fires) are inputs to the step function.
-/

namespace SpotifyWorker

/-- Item categories carried by a parsed SpotifyId (librespot SpotifyItemType). -/
inductive SpotifyItemType
  | Album
  | Artist
  | Episode
  | Playlist
  | Show
  | Track
  | Local
  | Unknown
  deriving DecidableEq, Repr

/-- A parsed typed identifier (librespot SpotifyId): a raw id plus its item type. -/
structure SpotifyId where
  id : Nat
  item_type : SpotifyItemType
  deriving DecidableEq, Repr

/-- Errors of SpotifyId::from_uri (librespot SpotifyIdError). -/
inductive SpotifyIdError
  | InvalidId
  | InvalidFormat
  | InvalidRoot
  deriving DecidableEq, Repr

/-- A playable item; the worker only ever reads its URI string. -/
structure Playable where
  uri : String
  deriving DecidableEq, Repr

/-- An access token (librespot Token); only its presence matters to the worker. -/
structure Token where
  access_token : String
  deriving DecidableEq, Repr

/-- Outward player events (crate PlayerEvent) sent via events.send.
Timestamps are milliseconds since the epoch as integers; durations are
milliseconds as naturals. -/
inductive PlayerEvent
  | Playing (playback_start : Int)
  | Paused (position_ms : Nat)
  | Stopped
  | FinishedTrack
  deriving DecidableEq, Repr

/-- Outward queue events (crate QueueEvent). -/
inductive QueueEvent
  | PreloadTrackRequest
  deriving DecidableEq, Repr

/-- Outward events published on the event manager. -/
inductive Event
  | Player (e : PlayerEvent)
  | Queue (e : QueueEvent)
  deriving DecidableEq, Repr

/-- Commands received on the command channel (WorkerCommand).  The oneshot
reply sender of RequestToken is modelled by an identifying natural. -/
inductive WorkerCommand
  | Load (playable : Playable) (start_playing : Bool) (position_ms : Nat)
  | Play
  | Pause
  | Stop
  | Seek (pos : Nat)
  | SetVolume (volume : Nat)
  | RequestToken (sender : Nat)
  | Preload (playable : Playable)
  | Shutdown
  deriving DecidableEq, Repr

/-- Backend events received on the player event channel (librespot
PlayerEvent).  The play_request_id and track_id fields are bound with
wildcards by the worker and therefore omitted; only position_ms is kept
where the worker reads it. -/
inductive LibrespotPlayerEvent
  | Playing (position_ms : Nat)
  | Seeked (position_ms : Nat)
  | PositionCorrection (position_ms : Nat)
  | Paused (position_ms : Nat)
  | Stopped
  | EndOfTrack
  | TimeToPreloadNextTrack
  | Loading
  | Preloading
  | Unavailable
  | VolumeChanged
  | TrackChanged
  | SessionConnected
  | SessionDisconnected
  | SessionClientChanged
  | ShuffleChanged
  | RepeatChanged
  | AutoPlayChanged
  | FilterExplicitContentChanged
  deriving DecidableEq, Repr

/-- The token task slot: either the inert never-completing placeholder
(Box::pin(futures::future::pending())) or an in-flight get_token future
holding the oneshot sender it captured. -/
inductive TokenTaskSlot
  | pending
  | fetching (sender : Nat)
  deriving DecidableEq, Repr

/-- The mutable state the worker owns across loop iterations. -/
structure WorkerState where
  active : Bool
  token_task : TokenTaskSlot
  deriving DecidableEq, Repr

/-- Worker::new: active starts false, the token task slot holds the inert
placeholder. -/
def Worker.new : WorkerState :=
  { active := false, token_task := TokenTaskSlot.pending }

/-- Observable effects of one loop iteration: outward sends and triggers on
the event manager, calls into the player and mixer capabilities, session
shutdown, and a value delivered through a RequestToken reply channel. -/
inductive Effect
  | sendEvent (e : Event)
  | trigger
  | playerLoad (id : SpotifyId) (start_playing : Bool) (position_ms : Nat)
  | playerPlay
  | playerPause
  | playerStop
  | playerSeek (pos : Nat)
  | mixerSetVolume (volume : Nat)
  | playerPreload (id : SpotifyId)
  | sessionShutdown
  | tokenSend (sender : Nat) (result : Option Token)
  deriving DecidableEq, Repr

/-- Which of the four select branches fired, together with the value it
yielded.  A channel branch yields none when the channel is exhausted. -/
inductive SelectInput
  | cmd (c : Option WorkerCommand)
  | playerEvent (e : Option LibrespotPlayerEvent)
  | tick
  | tokenDone (result : Option Token)
  deriving DecidableEq, Repr

/-- True exactly for a backend Playing event input. -/
def SelectInput.isPlayingEvent : SelectInput → Bool
  | SelectInput.playerEvent (some (LibrespotPlayerEvent.Playing _)) => true
  | _ => false

/-- Result of one loop iteration: the successor state, the effects performed
in order, and whether the loop broke. -/
structure StepOut where
  state : WorkerState
  effects : List Effect
  terminated : Bool
  deriving DecidableEq, Repr

/-- The command branch of the select (lines 104-151): dispatch one received
command, or log and continue when the command channel is exhausted. -/
def stepCommand (from_uri : String → Except SpotifyIdError SpotifyId)
    (c : Option WorkerCommand) (s : WorkerState) : StepOut :=
  match c with
  | some (WorkerCommand.Load playable start_playing position_ms) =>
    match from_uri playable.uri with
    | Except.ok id =>
      if id.item_type = SpotifyItemType.Unknown then
        { state := s, effects := [Effect.sendEvent (Event.Player PlayerEvent.FinishedTrack)],
          terminated := false }
      else
        { state := s, effects := [Effect.playerLoad id start_playing position_ms],
          terminated := false }
    | Except.error _ =>
      { state := s, effects := [Effect.sendEvent (Event.Player PlayerEvent.FinishedTrack)],
        terminated := false }
  | some WorkerCommand.Play =>
    { state := s, effects := [Effect.playerPlay], terminated := false }
  | some WorkerCommand.Pause =>
    { state := s, effects := [Effect.playerPause], terminated := false }
  | some WorkerCommand.Stop =>
    { state := s, effects := [Effect.playerStop], terminated := false }
  | some (WorkerCommand.Seek pos) =>
    { state := s, effects := [Effect.playerSeek pos], terminated := false }
  | some (WorkerCommand.SetVolume volume) =>
    { state := s, effects := [Effect.mixerSetVolume volume], terminated := false }
  | some (WorkerCommand.RequestToken sender) =>
    { state := { s with token_task := TokenTaskSlot.fetching sender },
      effects := [], terminated := false }
  | some (WorkerCommand.Preload playable) =>
    match from_uri playable.uri with
    | Except.ok id =>
      { state := s, effects := [Effect.playerPreload id], terminated := false }
    | Except.error _ =>
      { state := s, effects := [], terminated := false }
  | some WorkerCommand.Shutdown =>
    { state := s, effects := [Effect.playerStop, Effect.sessionShutdown], terminated := false }
  | none =>
    { state := s, effects := [], terminated := false }

/-- The player event branch of the select (lines 152-221): translate one
backend event, or break when the backend event channel has died. -/
def stepPlayerEvent (now : Int) (e : Option LibrespotPlayerEvent)
    (s : WorkerState) : StepOut :=
  match e with
  | some (LibrespotPlayerEvent.Playing position_ms) =>
    { state := { s with active := true },
      effects := [Effect.sendEvent (Event.Player (PlayerEvent.Playing (now - position_ms)))],
      terminated := false }
  | some (LibrespotPlayerEvent.Seeked position_ms)
  | some (LibrespotPlayerEvent.PositionCorrection position_ms) =>
    if s.active then
      { state := s,
        effects := [Effect.sendEvent (Event.Player (PlayerEvent.Playing (now - position_ms)))],
        terminated := false }
    else
      { state := s,
        effects := [Effect.sendEvent (Event.Player (PlayerEvent.Paused position_ms))],
        terminated := false }
  | some (LibrespotPlayerEvent.Paused position_ms) =>
    { state := { s with active := false },
      effects := [Effect.sendEvent (Event.Player (PlayerEvent.Paused position_ms))],
      terminated := false }
  | some LibrespotPlayerEvent.Stopped =>
    { state := { s with active := false },
      effects := [Effect.sendEvent (Event.Player PlayerEvent.Stopped)],
      terminated := false }
  | some LibrespotPlayerEvent.EndOfTrack =>
    { state := s, effects := [Effect.sendEvent (Event.Player PlayerEvent.FinishedTrack)],
      terminated := false }
  | some LibrespotPlayerEvent.TimeToPreloadNextTrack =>
    { state := s, effects := [Effect.sendEvent (Event.Queue QueueEvent.PreloadTrackRequest)],
      terminated := false }
  | some LibrespotPlayerEvent.Loading
  | some LibrespotPlayerEvent.Preloading
  | some LibrespotPlayerEvent.Unavailable
  | some LibrespotPlayerEvent.VolumeChanged
  | some LibrespotPlayerEvent.TrackChanged
  | some LibrespotPlayerEvent.SessionConnected
  | some LibrespotPlayerEvent.SessionDisconnected
  | some LibrespotPlayerEvent.SessionClientChanged
  | some LibrespotPlayerEvent.ShuffleChanged
  | some LibrespotPlayerEvent.RepeatChanged
  | some LibrespotPlayerEvent.AutoPlayChanged
  | some LibrespotPlayerEvent.FilterExplicitContentChanged =>
    { state := s, effects := [], terminated := false }
  | none =>
    { state := s, effects := [], terminated := true }

/-- The ui_refresh tick branch (lines 222-226): trigger a refresh when active. -/
def stepTick (s : WorkerState) : StepOut :=
  if s.active then
    { state := s, effects := [Effect.trigger], terminated := false }
  else
    { state := s, effects := [], terminated := false }

/-- The token task branch (lines 227-230).  The completing get_token future
has just delivered its result through the oneshot sender it captured; the
worker resets the slot to the inert placeholder.  The placeholder itself
never completes, so the pending case is unreachable and a no-op. -/
def stepTokenDone (result : Option Token) (s : WorkerState) : StepOut :=
  match s.token_task with
  | TokenTaskSlot.fetching sender =>
    { state := { s with token_task := TokenTaskSlot.pending },
      effects := [Effect.tokenSend sender result], terminated := false }
  | TokenTaskSlot.pending =>
    { state := s, effects := [], terminated := false }

/-- One iteration of Worker::run_loop: check session validity (lines 97-101),
then dispatch whichever select branch fired. -/
def runIteration (from_uri : String → Except SpotifyIdError SpotifyId)
    (now : Int) (session_invalid : Bool) (input : SelectInput)
    (s : WorkerState) : StepOut :=
  if session_invalid then
    { state := s, effects := [Effect.sendEvent (Event.Player PlayerEvent.Stopped)],
      terminated := true }
  else
    match input with
    | SelectInput.cmd c => stepCommand from_uri c s
    | SelectInput.playerEvent e => stepPlayerEvent now e s
    | SelectInput.tick => stepTick s
    | SelectInput.tokenDone result => stepTokenDone result s

/-- The environment of one iteration: receipt time, session validity at the
top of the loop, and the select branch that fired. -/
structure IterInput where
  now : Int
  session_invalid : Bool
  input : SelectInput
  deriving DecidableEq, Repr

/-- Result of running the loop over a finite schedule of iterations. -/
structure TraceOut where
  state : WorkerState
  effects : List Effect
  deriving DecidableEq, Repr

/-- Run successive loop iterations over a schedule until the loop breaks or
the schedule is exhausted, accumulating effects in order. -/
def runTrace (from_uri : String → Except SpotifyIdError SpotifyId)
    (s : WorkerState) : List IterInput → TraceOut
  | [] => { state := s, effects := [] }
  | i :: rest =>
    let step := runIteration from_uri i.now i.session_invalid i.input s
    if step.terminated then
      { state := step.state, effects := step.effects }
    else
      let t := runTrace from_uri step.state rest
      { state := t.state, effects := step.effects ++ t.effects }

/-- The fixed scope list hard-coded in Worker::get_token (line 78). -/
def token_scopes : String :=
  "user-read-private,playlist-read-private,playlist-read-collaborative,playlist-modify-public,playlist-modify-private,user-follow-modify,user-follow-read,user-library-read,user-library-modify,user-top-read,user-read-recently-played"

/-- Sending through the oneshot reply channel: succeeds when the receiver is
still alive, otherwise returns the value back as an error (tokio oneshot
Sender::send semantics). -/
def oneshotSend (receiver_alive : Bool) (v : Option Token) :
    Except (Option Token) Unit :=
  if receiver_alive then Except.ok () else Except.error v

/-- Outcome of the body of the future built by Worker::get_token (lines
82-90): the fetched result is pushed through the sender and the send result
is unwrapped.  some () is normal completion; none models the unwrap panic
when the receiver was dropped. -/
def getTokenOutcome (receiver_alive : Bool) (result : Option Token) :
    Option Unit :=
  match oneshotSend receiver_alive result with
  | Except.ok u => some u
  | Except.error _ => none

/-- Claim C1: for a Load(item, autostart, offset_ms) command, if parsing the
item URI fails or the parsed identifier has the Unknown category, the worker
emits exactly one FinishedTrack outward event and performs no backend load;
otherwise it calls backend load with the parsed identifier and the given
flags and emits no outward event synchronously. -/
theorem C1_load_dispatch (from_uri : String → Except SpotifyIdError SpotifyId)
    (now : Int) (playable : Playable) (start_playing : Bool) (position_ms : Nat)
    (s : WorkerState) :
    (((∃ e, from_uri playable.uri = Except.error e) ∨
        (∃ id, from_uri playable.uri = Except.ok id ∧
          id.item_type = SpotifyItemType.Unknown)) →
      runIteration from_uri now false
          (SelectInput.cmd (some (WorkerCommand.Load playable start_playing position_ms))) s =
        { state := s, effects := [Effect.sendEvent (Event.Player PlayerEvent.FinishedTrack)],
          terminated := false }) ∧
    (∀ id, from_uri playable.uri = Except.ok id →
      id.item_type ≠ SpotifyItemType.Unknown →
      runIteration from_uri now false
          (SelectInput.cmd (some (WorkerCommand.Load playable start_playing position_ms))) s =
        { state := s, effects := [Effect.playerLoad id start_playing position_ms],
          terminated := false }) := by
  constructor
  · rintro (⟨e, he⟩ | ⟨id, hid, hty⟩)
    · simp [runIteration, stepCommand, he]
    · simp [runIteration, stepCommand, hid, hty]
  · intro id hid hty
    simp [runIteration, stepCommand, hid, hty]

/-- Witness for C1: a concrete parser mapping the URI to a Track identifier
makes Load perform exactly the backend load call with the given flags. -/
theorem C1_load_dispatch_witness :
    runIteration (fun _ => Except.ok ⟨7, SpotifyItemType.Track⟩) 0 false
        (SelectInput.cmd (some (WorkerCommand.Load ⟨"spotify:track:abc"⟩ true 5000)))
        Worker.new =
      { state := Worker.new,
        effects := [Effect.playerLoad ⟨7, SpotifyItemType.Track⟩ true 5000],
        terminated := false } :=
  (C1_load_dispatch (fun _ => Except.ok ⟨7, SpotifyItemType.Track⟩) 0
      ⟨"spotify:track:abc"⟩ true 5000 Worker.new).2
    ⟨7, SpotifyItemType.Track⟩ rfl (by decide)

/-- Claim C2: for a backend Playing(position_ms) event, the worker emits
exactly one outward Playing event whose timestamp is the receipt time minus
position_ms, and sets active to true. -/
theorem C2_playing_event (from_uri : String → Except SpotifyIdError SpotifyId)
    (now : Int) (position_ms : Nat) (s : WorkerState) :
    runIteration from_uri now false
        (SelectInput.playerEvent (some (LibrespotPlayerEvent.Playing position_ms))) s =
      { state := { s with active := true },
        effects := [Effect.sendEvent (Event.Player (PlayerEvent.Playing (now - position_ms)))],
        terminated := false } :=
  rfl

/-- Claim C3: Seeked and PositionCorrection are handled identically: when
active the worker emits Playing(now minus position), otherwise it emits
Paused(position); active is left unchanged in both cases (the successor
state is exactly the prior state). -/
theorem C3_seek_position_correction
    (from_uri : String → Except SpotifyIdError SpotifyId)
    (now : Int) (position_ms : Nat) (s : WorkerState) :
    runIteration from_uri now false
        (SelectInput.playerEvent (some (LibrespotPlayerEvent.Seeked position_ms))) s =
      runIteration from_uri now false
        (SelectInput.playerEvent
          (some (LibrespotPlayerEvent.PositionCorrection position_ms))) s ∧
    runIteration from_uri now false
        (SelectInput.playerEvent (some (LibrespotPlayerEvent.Seeked position_ms))) s =
      { state := s,
        effects := [if s.active then
            Effect.sendEvent (Event.Player (PlayerEvent.Playing (now - position_ms)))
          else
            Effect.sendEvent (Event.Player (PlayerEvent.Paused position_ms))],
        terminated := false } := by
  constructor <;> cases h : s.active <;>
    simp [runIteration, stepPlayerEvent, h]

/-- Processing any command leaves the active flag unchanged. -/
theorem stepCommand_active (from_uri : String → Except SpotifyIdError SpotifyId)
    (c : Option WorkerCommand) (s : WorkerState) :
    (stepCommand from_uri c s).state.active = s.active := by
  match c with
  | none => rfl
  | some (WorkerCommand.Load playable start_playing position_ms) =>
    cases h : from_uri playable.uri with
    | ok id =>
      simp only [stepCommand, h]
      split <;> rfl
    | error e => simp [stepCommand, h]
  | some WorkerCommand.Play => rfl
  | some WorkerCommand.Pause => rfl
  | some WorkerCommand.Stop => rfl
  | some (WorkerCommand.Seek pos) => rfl
  | some (WorkerCommand.SetVolume volume) => rfl
  | some (WorkerCommand.RequestToken sender) => rfl
  | some (WorkerCommand.Preload playable) =>
    cases h : from_uri playable.uri <;> simp [stepCommand, h]
  | some WorkerCommand.Shutdown => rfl

/-- Claim C4: active reflects only backend-reported state.  Every command
leaves it unchanged; it flips to true only on a backend Playing event and to
false only on a backend Paused or Stopped event; a Paused event always sets
it false regardless of the prior state. -/
theorem C4_active_backend_only (from_uri : String → Except SpotifyIdError SpotifyId)
    (now : Int) (input : SelectInput) (s : WorkerState) :
    ((∀ c, input = SelectInput.cmd c →
        (runIteration from_uri now false input s).state.active = s.active) ∧
      ((runIteration from_uri now false input s).state.active = true →
        s.active = true ∨
          ∃ p, input = SelectInput.playerEvent (some (LibrespotPlayerEvent.Playing p))) ∧
      ((runIteration from_uri now false input s).state.active = false →
        s.active = false ∨
          (∃ p, input = SelectInput.playerEvent (some (LibrespotPlayerEvent.Paused p))) ∨
          input = SelectInput.playerEvent (some LibrespotPlayerEvent.Stopped)) ∧
      (∀ p, input = SelectInput.playerEvent (some (LibrespotPlayerEvent.Paused p)) →
        (runIteration from_uri now false input s).state.active = false)) := by
  refine ⟨?_, ?_, ?_, ?_⟩
  · rintro c rfl
    simpa [runIteration] using stepCommand_active from_uri c s
  · intro h
    match input with
    | SelectInput.cmd c =>
      left; rw [← stepCommand_active from_uri c s]; exact h
    | SelectInput.playerEvent e =>
      match e with
      | some (LibrespotPlayerEvent.Playing p) => exact Or.inr ⟨p, rfl⟩
      | some (LibrespotPlayerEvent.Seeked p)
      | some (LibrespotPlayerEvent.PositionCorrection p) =>
        left
        revert h
        by_cases ha : s.active <;> simp [runIteration, stepPlayerEvent, ha]
      | some (LibrespotPlayerEvent.Paused p) =>
        simp [runIteration, stepPlayerEvent] at h
      | some LibrespotPlayerEvent.Stopped =>
        simp [runIteration, stepPlayerEvent] at h
      | some LibrespotPlayerEvent.EndOfTrack => exact Or.inl h
      | some LibrespotPlayerEvent.TimeToPreloadNextTrack => exact Or.inl h
      | some LibrespotPlayerEvent.Loading => exact Or.inl h
      | some LibrespotPlayerEvent.Preloading => exact Or.inl h
      | some LibrespotPlayerEvent.Unavailable => exact Or.inl h
      | some LibrespotPlayerEvent.VolumeChanged => exact Or.inl h
      | some LibrespotPlayerEvent.TrackChanged => exact Or.inl h
      | some LibrespotPlayerEvent.SessionConnected => exact Or.inl h
      | some LibrespotPlayerEvent.SessionDisconnected => exact Or.inl h
      | some LibrespotPlayerEvent.SessionClientChanged => exact Or.inl h
      | some LibrespotPlayerEvent.ShuffleChanged => exact Or.inl h
      | some LibrespotPlayerEvent.RepeatChanged => exact Or.inl h
      | some LibrespotPlayerEvent.AutoPlayChanged => exact Or.inl h
      | some LibrespotPlayerEvent.FilterExplicitContentChanged => exact Or.inl h
      | none => exact Or.inl h
    | SelectInput.tick =>
      left
      revert h
      by_cases ha : s.active <;> simp [runIteration, stepTick, ha]
    | SelectInput.tokenDone result =>
      left
      revert h
      cases ht : s.token_task <;> simp [runIteration, stepTokenDone, ht]
  · intro h
    match input with
    | SelectInput.cmd c =>
      left; rw [← stepCommand_active from_uri c s]; exact h
    | SelectInput.playerEvent e =>
      match e with
      | some (LibrespotPlayerEvent.Playing p) =>
        simp [runIteration, stepPlayerEvent] at h
      | some (LibrespotPlayerEvent.Seeked p)
      | some (LibrespotPlayerEvent.PositionCorrection p) =>
        left
        revert h
        by_cases ha : s.active <;> simp [runIteration, stepPlayerEvent, ha]
      | some (LibrespotPlayerEvent.Paused p) => exact Or.inr (Or.inl ⟨p, rfl⟩)
      | some LibrespotPlayerEvent.Stopped => exact Or.inr (Or.inr rfl)
      | some LibrespotPlayerEvent.EndOfTrack => exact Or.inl h
      | some LibrespotPlayerEvent.TimeToPreloadNextTrack => exact Or.inl h
      | some LibrespotPlayerEvent.Loading => exact Or.inl h
      | some LibrespotPlayerEvent.Preloading => exact Or.inl h
      | some LibrespotPlayerEvent.Unavailable => exact Or.inl h
      | some LibrespotPlayerEvent.VolumeChanged => exact Or.inl h
      | some LibrespotPlayerEvent.TrackChanged => exact Or.inl h
      | some LibrespotPlayerEvent.SessionConnected => exact Or.inl h
      | some LibrespotPlayerEvent.SessionDisconnected => exact Or.inl h
      | some LibrespotPlayerEvent.SessionClientChanged => exact Or.inl h
      | some LibrespotPlayerEvent.ShuffleChanged => exact Or.inl h
      | some LibrespotPlayerEvent.RepeatChanged => exact Or.inl h
      | some LibrespotPlayerEvent.AutoPlayChanged => exact Or.inl h
      | some LibrespotPlayerEvent.FilterExplicitContentChanged => exact Or.inl h
      | none => exact Or.inl h
    | SelectInput.tick =>
      left
      revert h
      by_cases ha : s.active <;> simp [runIteration, stepTick, ha]
    | SelectInput.tokenDone result =>
      left
      revert h
      cases ht : s.token_task <;> simp [runIteration, stepTokenDone, ht]
  · rintro p rfl
    simp [runIteration, stepPlayerEvent]

/-- Witness for C4: a Pause command processed from a playing state leaves
active untouched, and a backend Paused event from a playing state clears it. -/
theorem C4_active_backend_only_witness :
    (runIteration (fun _ => Except.error SpotifyIdError.InvalidId) 0 false
        (SelectInput.cmd (some WorkerCommand.Pause))
        { active := true, token_task := TokenTaskSlot.pending }).state.active = true ∧
    (runIteration (fun _ => Except.error SpotifyIdError.InvalidId) 0 false
        (SelectInput.playerEvent (some (LibrespotPlayerEvent.Paused 3)))
        { active := true, token_task := TokenTaskSlot.pending }).state.active = false :=
  ⟨(C4_active_backend_only (fun _ => Except.error SpotifyIdError.InvalidId) 0
      (SelectInput.cmd (some WorkerCommand.Pause))
      { active := true, token_task := TokenTaskSlot.pending }).1
      (some WorkerCommand.Pause) rfl,
    (C4_active_backend_only (fun _ => Except.error SpotifyIdError.InvalidId) 0
      (SelectInput.playerEvent (some (LibrespotPlayerEvent.Paused 3)))
      { active := true, token_task := TokenTaskSlot.pending }).2.2.2 3 rfl⟩

/-- Claim C5: when the session reports invalid at the top of a loop
iteration, the worker emits exactly one Stopped outward event and terminates
at once: the rest of the schedule, including any queued commands or backend
events, is never processed and the state is untouched. -/
theorem C5_session_invalid (from_uri : String → Except SpotifyIdError SpotifyId)
    (s : WorkerState) (i : IterInput) (rest : List IterInput)
    (h : i.session_invalid = true) :
    runTrace from_uri s (i :: rest) =
      { state := s, effects := [Effect.sendEvent (Event.Player PlayerEvent.Stopped)] } := by
  simp [runTrace, runIteration, h]

/-- Witness for C5: a concrete invalid-session iteration followed by a queued
Play command stops with a single Stopped event and processes nothing else. -/
theorem C5_session_invalid_witness :
    runTrace (fun _ => Except.error SpotifyIdError.InvalidId) Worker.new
        [⟨0, true, SelectInput.cmd (some WorkerCommand.Play)⟩,
          ⟨1, false, SelectInput.cmd (some WorkerCommand.Play)⟩] =
      { state := Worker.new,
        effects := [Effect.sendEvent (Event.Player PlayerEvent.Stopped)] } :=
  C5_session_invalid (fun _ => Except.error SpotifyIdError.InvalidId) Worker.new
    ⟨0, true, SelectInput.cmd (some WorkerCommand.Play)⟩
    [⟨1, false, SelectInput.cmd (some WorkerCommand.Play)⟩] rfl

/-- Claim C6: channel-closure handling is asymmetric.  Exhaustion of the
backend event channel terminates the loop immediately with no outward
effect, dropping the rest of the schedule; exhaustion of the command channel
is a no-op and the loop keeps running the rest of the schedule unchanged. -/
theorem C6_channel_closure (from_uri : String → Except SpotifyIdError SpotifyId)
    (s : WorkerState) (now1 now2 : Int) (rest : List IterInput) :
    runTrace from_uri s (⟨now1, false, SelectInput.playerEvent none⟩ :: rest) =
      { state := s, effects := [] } ∧
    runTrace from_uri s (⟨now2, false, SelectInput.cmd none⟩ :: rest) =
      runTrace from_uri s rest := by
  constructor
  · simp [runTrace, runIteration, stepPlayerEvent]
  · simp [runTrace, runIteration, stepCommand]

/-- Claim C7: the token task slot has latest-wins semantics.  RequestToken
overwrites the slot unconditionally; with two RequestToken commands issued
before the first fetch completes, exactly one reply is delivered and it goes
to the second sender, and completion resets the slot to the inert
placeholder. -/
theorem C7_token_slot (from_uri : String → Except SpotifyIdError SpotifyId)
    (s : WorkerState) (n1 n2 n3 : Int) (s1 s2 : Nat) (result : Option Token) :
    (runIteration from_uri n1 false
        (SelectInput.cmd (some (WorkerCommand.RequestToken s1))) s).state.token_task =
      TokenTaskSlot.fetching s1 ∧
    runTrace from_uri s
        [⟨n1, false, SelectInput.cmd (some (WorkerCommand.RequestToken s1))⟩,
          ⟨n2, false, SelectInput.cmd (some (WorkerCommand.RequestToken s2))⟩,
          ⟨n3, false, SelectInput.tokenDone result⟩] =
      { state := { s with token_task := TokenTaskSlot.pending },
        effects := [Effect.tokenSend s2 result] } := by
  constructor
  · rfl
  · simp [runTrace, runIteration, stepCommand, stepTokenDone]

/-- Claim C8: on a tick of the periodic timer the worker triggers exactly one
refresh notification when active, and nothing at all when not active. -/
theorem C8_tick (from_uri : String → Except SpotifyIdError SpotifyId)
    (now : Int) (s : WorkerState) :
    runIteration from_uri now false SelectInput.tick s =
      { state := s,
        effects := if s.active then [Effect.trigger] else [],
        terminated := false } := by
  cases h : s.active <;> simp [runIteration, stepTick, h]

/-- Claim C9: delivering the fetched token is an unconditional success-path
send.  When the reply channel receiver is alive the send succeeds and
get_token completes normally; when it is not, the unwrapped send error is a
panic rather than a swallowed failure. -/
theorem C9_token_send_unwrap (receiver_alive : Bool) (result : Option Token) :
    (receiver_alive = true → getTokenOutcome receiver_alive result = some ()) ∧
    (receiver_alive = false → getTokenOutcome receiver_alive result = none) := by
  constructor <;> rintro rfl <;> rfl

/-- Witness for C9: with a live receiver a concrete token is delivered and
get_token completes without panicking. -/
theorem C9_token_send_unwrap_witness :
    getTokenOutcome true (some ⟨"tok"⟩) = some () :=
  (C9_token_send_unwrap true (some ⟨"tok"⟩)).1 rfl

/-- An iteration started with active false and not fed a backend Playing
event ends with active still false. -/
theorem runIteration_active_false (from_uri : String → Except SpotifyIdError SpotifyId)
    (now : Int) (session_invalid : Bool) (input : SelectInput) (s : WorkerState)
    (hs : s.active = false) (h : input.isPlayingEvent = false) :
    (runIteration from_uri now session_invalid input s).state.active = false := by
  cases hsi : session_invalid with
  | true => simpa [runIteration] using hs
  | false =>
    match input with
    | SelectInput.cmd c =>
      rw [show runIteration from_uri now false (SelectInput.cmd c) s =
          stepCommand from_uri c s from rfl, stepCommand_active]
      exact hs
    | SelectInput.playerEvent e =>
      match e with
      | some (LibrespotPlayerEvent.Playing p) =>
        simp [SelectInput.isPlayingEvent] at h
      | some (LibrespotPlayerEvent.Seeked p)
      | some (LibrespotPlayerEvent.PositionCorrection p) =>
        simp [runIteration, stepPlayerEvent, hs]
      | some (LibrespotPlayerEvent.Paused p) => rfl
      | some LibrespotPlayerEvent.Stopped => rfl
      | some LibrespotPlayerEvent.EndOfTrack => exact hs
      | some LibrespotPlayerEvent.TimeToPreloadNextTrack => exact hs
      | some LibrespotPlayerEvent.Loading => exact hs
      | some LibrespotPlayerEvent.Preloading => exact hs
      | some LibrespotPlayerEvent.Unavailable => exact hs
      | some LibrespotPlayerEvent.VolumeChanged => exact hs
      | some LibrespotPlayerEvent.TrackChanged => exact hs
      | some LibrespotPlayerEvent.SessionConnected => exact hs
      | some LibrespotPlayerEvent.SessionDisconnected => exact hs
      | some LibrespotPlayerEvent.SessionClientChanged => exact hs
      | some LibrespotPlayerEvent.ShuffleChanged => exact hs
      | some LibrespotPlayerEvent.RepeatChanged => exact hs
      | some LibrespotPlayerEvent.AutoPlayChanged => exact hs
      | some LibrespotPlayerEvent.FilterExplicitContentChanged => exact hs
      | none => exact hs
    | SelectInput.tick =>
      simp [runIteration, stepTick, hs]
    | SelectInput.tokenDone result =>
      cases ht : s.token_task <;> simp [runIteration, stepTokenDone, ht, hs]

/-- An iteration started with active false never triggers a refresh. -/
theorem runIteration_no_trigger (from_uri : String → Except SpotifyIdError SpotifyId)
    (now : Int) (session_invalid : Bool) (input : SelectInput) (s : WorkerState)
    (hs : s.active = false) :
    Effect.trigger ∉ (runIteration from_uri now session_invalid input s).effects := by
  cases hsi : session_invalid with
  | true => simp [runIteration]
  | false =>
    match input with
    | SelectInput.cmd c =>
      match c with
      | none => simp [runIteration, stepCommand]
      | some (WorkerCommand.Load playable start_playing position_ms) =>
        cases hp : from_uri playable.uri with
        | ok id =>
          by_cases hty : id.item_type = SpotifyItemType.Unknown <;>
            simp [runIteration, stepCommand, hp, hty]
        | error e => simp [runIteration, stepCommand, hp]
      | some WorkerCommand.Play => simp [runIteration, stepCommand]
      | some WorkerCommand.Pause => simp [runIteration, stepCommand]
      | some WorkerCommand.Stop => simp [runIteration, stepCommand]
      | some (WorkerCommand.Seek pos) => simp [runIteration, stepCommand]
      | some (WorkerCommand.SetVolume volume) => simp [runIteration, stepCommand]
      | some (WorkerCommand.RequestToken sender) => simp [runIteration, stepCommand]
      | some (WorkerCommand.Preload playable) =>
        cases hp : from_uri playable.uri <;> simp [runIteration, stepCommand, hp]
      | some WorkerCommand.Shutdown => simp [runIteration, stepCommand]
    | SelectInput.playerEvent e =>
      match e with
      | some (LibrespotPlayerEvent.Playing p) => simp [runIteration, stepPlayerEvent]
      | some (LibrespotPlayerEvent.Seeked p)
      | some (LibrespotPlayerEvent.PositionCorrection p) =>
        simp [runIteration, stepPlayerEvent, hs]
      | some (LibrespotPlayerEvent.Paused p) => simp [runIteration, stepPlayerEvent]
      | some LibrespotPlayerEvent.Stopped => simp [runIteration, stepPlayerEvent]
      | some LibrespotPlayerEvent.EndOfTrack => simp [runIteration, stepPlayerEvent]
      | some LibrespotPlayerEvent.TimeToPreloadNextTrack => simp [runIteration, stepPlayerEvent]
      | some LibrespotPlayerEvent.Loading => simp [runIteration, stepPlayerEvent]
      | some LibrespotPlayerEvent.Preloading => simp [runIteration, stepPlayerEvent]
      | some LibrespotPlayerEvent.Unavailable => simp [runIteration, stepPlayerEvent]
      | some LibrespotPlayerEvent.VolumeChanged => simp [runIteration, stepPlayerEvent]
      | some LibrespotPlayerEvent.TrackChanged => simp [runIteration, stepPlayerEvent]
      | some LibrespotPlayerEvent.SessionConnected => simp [runIteration, stepPlayerEvent]
      | some LibrespotPlayerEvent.SessionDisconnected => simp [runIteration, stepPlayerEvent]
      | some LibrespotPlayerEvent.SessionClientChanged => simp [runIteration, stepPlayerEvent]
      | some LibrespotPlayerEvent.ShuffleChanged => simp [runIteration, stepPlayerEvent]
      | some LibrespotPlayerEvent.RepeatChanged => simp [runIteration, stepPlayerEvent]
      | some LibrespotPlayerEvent.AutoPlayChanged => simp [runIteration, stepPlayerEvent]
      | some LibrespotPlayerEvent.FilterExplicitContentChanged =>
        simp [runIteration, stepPlayerEvent]
      | none => simp [runIteration, stepPlayerEvent]
    | SelectInput.tick => simp [runIteration, stepTick, hs]
    | SelectInput.tokenDone result =>
      cases ht : s.token_task <;> simp [runIteration, stepTokenDone, ht]

/-- A schedule containing no backend Playing event, run from a state with
active false, never triggers a refresh. -/
theorem runTrace_no_trigger (from_uri : String → Except SpotifyIdError SpotifyId)
    (inputs : List IterInput) (s : WorkerState) (hs : s.active = false)
    (h : ∀ i ∈ inputs, i.input.isPlayingEvent = false) :
    Effect.trigger ∉ (runTrace from_uri s inputs).effects := by
  induction inputs generalizing s with
  | nil => simp [runTrace]
  | cons i rest ih =>
    have hi : i.input.isPlayingEvent = false := h i (List.mem_cons_self i rest)
    have hstep :=
      runIteration_active_false from_uri i.now i.session_invalid i.input s hs hi
    have htrig :=
      runIteration_no_trigger from_uri i.now i.session_invalid i.input s hs
    simp only [runTrace]
    split
    · exact htrig
    · intro hmem
      rcases List.mem_append.mp hmem with hmem | hmem
      · exact htrig hmem
      · exact ih _ hstep (fun j hj => h j (List.mem_cons_of_mem i hj)) hmem

/-- Claim C10: a freshly constructed worker has active false and the inert
token task placeholder; consequently any schedule with no backend Playing
event never triggers a refresh, and a Seeked or PositionCorrection event
arriving first emits Paused(position), not Playing. -/
theorem C10_fresh_worker (from_uri : String → Except SpotifyIdError SpotifyId)
    (now : Int) (position_ms : Nat) :
    Worker.new.active = false ∧
    Worker.new.token_task = TokenTaskSlot.pending ∧
    (∀ inputs : List IterInput,
      (∀ i ∈ inputs, i.input.isPlayingEvent = false) →
      Effect.trigger ∉ (runTrace from_uri Worker.new inputs).effects) ∧
    runIteration from_uri now false
        (SelectInput.playerEvent (some (LibrespotPlayerEvent.Seeked position_ms)))
        Worker.new =
      { state := Worker.new,
        effects := [Effect.sendEvent (Event.Player (PlayerEvent.Paused position_ms))],
        terminated := false } ∧
    runIteration from_uri now false
        (SelectInput.playerEvent (some (LibrespotPlayerEvent.PositionCorrection position_ms)))
        Worker.new =
      { state := Worker.new,
        effects := [Effect.sendEvent (Event.Player (PlayerEvent.Paused position_ms))],
        terminated := false } := by
  refine ⟨rfl, rfl, ?_, rfl, rfl⟩
  intro inputs h
  exact runTrace_no_trigger from_uri inputs Worker.new rfl h

/-- Witness for C10: two ticks and a Seeked event from a fresh worker, a
schedule with no Playing event, produce no refresh trigger. -/
theorem C10_fresh_worker_witness :
    Effect.trigger ∉
      (runTrace (fun _ => Except.error SpotifyIdError.InvalidId) Worker.new
        [⟨0, false, SelectInput.tick⟩,
          ⟨1, false, SelectInput.playerEvent (some (LibrespotPlayerEvent.Seeked 9))⟩,
          ⟨2, false, SelectInput.tick⟩]).effects :=
  (C10_fresh_worker (fun _ => Except.error SpotifyIdError.InvalidId) 0 0).2.2.1
    [⟨0, false, SelectInput.tick⟩,
      ⟨1, false, SelectInput.playerEvent (some (LibrespotPlayerEvent.Seeked 9))⟩,
      ⟨2, false, SelectInput.tick⟩]
    (by decide)

end SpotifyWorker
